import Mathlib

/-!
Verification development for the `inteligent-rss` repository.

We give a shallow embedding of the ingestion/evaluation pipeline:
the LLM response parser (`src/llm_processor.py`), the deduplicating
item store and the SQL-backed operations of `RSSDatabase`
(`src/database/RSSDatabase.py`), the orchestration loop of
`RSSConsumer.consume_all_sources` (`src/rss_consumer.py`), and the
query ledger used by `src/main.py` (whose database implementation is
absent from the repository snapshot and is therefore modelled from the
specification, see the doc comments there).

Python strings are modelled on `List Char`; `str.split(sep)` for a
single-character separator is `splitOnChar`, `tok in line` is
`List.isInfixOf`, `str.strip()` is `pyStrip` (Python ASCII whitespace),
and `int(...)` is `pyInt` (sign, decimal digits, single underscores
between digits; non-ASCII decimal digits accepted by CPython are not
modelled — no theorem below depends on them).
-/

namespace IntelligentRSS

/-- Model of Python `s.split(c)` for a one-character separator `c`:
always returns at least one (possibly empty) segment, and keeps empty
segments, exactly as CPython does. -/
def splitOnChar (sep : Char) : List Char → List (List Char)
  | [] => [[]]
  | x :: xs =>
    match splitOnChar sep xs with
    | [] => [[]]
    | seg :: segs =>
      if x = sep then [] :: seg :: segs else (x :: seg) :: segs

/-- Python whitespace characters stripped by `str.strip()` (ASCII part). -/
def pyIsSpace (c : Char) : Bool :=
  c = ' ' || c = '\t' || c = '\n' || c = '\r' || c = '\x0b' || c = '\x0c'

/-- Model of Python `str.strip()`. -/
def pyStrip (s : List Char) : List Char :=
  ((s.dropWhile pyIsSpace).reverse.dropWhile pyIsSpace).reverse

/-- Digit run with optional single underscores between digits, as accepted
by CPython `int()`; accumulates the decimal value. -/
def pyDigitsAux (acc : Nat) : List Char → Option Nat
  | [] => some acc
  | c :: cs =>
    if c.isDigit then pyDigitsAux (10 * acc + (c.toNat - '0'.toNat)) cs
    else if c = '_' then
      match cs with
      | d :: _ => if d.isDigit then pyDigitsAux acc cs else none
      | [] => none
    else none

/-- Nonempty digit run (underscores allowed strictly between digits). -/
def pyDigits : List Char → Option Nat
  | [] => none
  | c :: cs => if c.isDigit then pyDigitsAux 0 (c :: cs) else none

/-- Model of Python `int(s)` on a decimal string: strip whitespace, then an
optional sign followed by digits; `none` models a raised `ValueError`. -/
def pyInt (s : List Char) : Option Int :=
  match pyStrip s with
  | '+' :: rest => (pyDigits rest).map (fun n => (n : Int))
  | '-' :: rest => (pyDigits rest).map (fun n => -(n : Int))
  | rest => (pyDigits rest).map (fun n => (n : Int))

/-- Model of Python `tok in line` (substring containment). -/
def pyContains (line tok : List Char) : Bool := decide (tok <:+: line)

/-- Timestamp model for `datetime.datetime` values carried by items. -/
structure Datetime where
  year : Nat
  month : Nat
  day : Nat
  hour : Nat
  minute : Nat
  second : Nat
deriving DecidableEq, Repr

/-- Zero-pad a numeral to two digits. -/
def pad2 (n : Nat) : String :=
  if n < 10 then "0" ++ toString n else toString n

/-- Model of `datetime.isoformat()` (microseconds, always zero in this
model, are omitted by CPython as well). -/
def Datetime.isoformat (d : Datetime) : String :=
  toString d.year ++ "-" ++ pad2 d.month ++ "-" ++ pad2 d.day ++ "T" ++
    pad2 d.hour ++ ":" ++ pad2 d.minute ++ ":" ++ pad2 d.second

/-- `RSSItem` dataclass from `src/base_source.py`. -/
structure RSSItem where
  title : String
  link : String
  description : String
  published : Datetime
  content : String
  source : String
  guid : String
deriving DecidableEq, Repr

/-- The dictionary produced by `LLMProcessor._parse_llm_response`
(both its normal return and its `except` fallback return). -/
structure LLMResult where
  item_guid : String
  item_title : String
  item_source : String
  query : String
  relevance_score : Int
  relevance : String
  explanation : String
  key_information : String
  summary : String
  llm_response : String
  processed_at : String
deriving DecidableEq, Repr

/-- `[line for line in response.split(chr(10)) if tok in line]` followed by
taking element `[0]` guarded by truthiness of the list: the first line of
the response containing the token, if any. -/
def lineFor (tok : String) (response : List Char) : Option (List Char) :=
  ((splitOnChar '\n' response).filter (fun l => pyContains l tok.data)).head?

/-- Score extraction of `_parse_llm_response` (`src/llm_processor.py`
lines 112-119): first line containing `Relevance Score:`, then
`line.split(chr(58))[1].strip()` fed to `int`; `ValueError`/`IndexError`
leave the default `0`. -/
def extractScore (response : List Char) : Int :=
  match lineFor "Relevance Score:" response with
  | none => 0
  | some line =>
    match (splitOnChar ':' line).get? 1 with
    | none => 0
    | some seg =>
      match pyInt (pyStrip seg) with
      | none => 0
      | some n => n

/-- Text-field extraction of `_parse_llm_response`: first line containing
the token, then `line.split(chr(58))[1].strip()`; an `IndexError` leaves
the default. -/
def extractField (tok : String) (dflt : String) (response : List Char) : String :=
  match lineFor tok response with
  | none => dflt
  | some line =>
    match (splitOnChar ':' line).get? 1 with
    | none => dflt
    | some seg => String.mk (pyStrip seg)

/-- `LLMProcessor._parse_llm_response` (`src/llm_processor.py` lines
108-169), normal path.  Every string operation in the Python body is
total (each field extraction catches its own `ValueError`/`IndexError`),
so the function is total here; the `except` fallback of lines 171-185 is
modelled separately as `parse_llm_response_error`. -/
def parse_llm_response (query : String) (response : String) (item : RSSItem) :
    LLMResult :=
  { item_guid := item.guid
    item_title := item.title
    item_source := item.source
    query := query
    relevance_score := extractScore response.data
    relevance := extractField "Relevance:" "Unknown" response.data
    explanation := extractField "Explanation:" "" response.data
    key_information := extractField "Key Information:" "" response.data
    summary := extractField "Summary:" "" response.data
    llm_response := response
    processed_at := item.published.isoformat }

/-- The `except` branch of `_parse_llm_response` (lines 171-185):
the record returned when an exception `e` interrupts the normal path. -/
def parse_llm_response_error (e : String) (query : String) (response : String)
    (item : RSSItem) : LLMResult :=
  { item_guid := item.guid
    item_title := item.title
    item_source := item.source
    query := query
    relevance_score := 0
    relevance := "Error"
    explanation := "Error parsing response: " ++ e
    key_information := ""
    summary := ""
    llm_response := response
    processed_at := item.published.isoformat }

/-- The record returned for an input lacking every labeled field:
all defaults, raw response and item context preserved. -/
def defaultResult (query : String) (response : String) (item : RSSItem) :
    LLMResult :=
  { item_guid := item.guid
    item_title := item.title
    item_source := item.source
    query := query
    relevance_score := 0
    relevance := "Unknown"
    explanation := ""
    key_information := ""
    summary := ""
    llm_response := response
    processed_at := item.published.isoformat }

/-- Extraction as worded by the specification (§4.3): scan response lines
in order for the first line containing the label token, take everything
after the first occurrence of the token (whose last character is the
first colon following the token), and trim.  Used only to compare the
spec wording against the code. -/
def specAfterTok (tok : List Char) : List Char → Option (List Char)
  | [] => none
  | c :: cs =>
    if tok.isPrefixOf (c :: cs) then some ((c :: cs).drop tok.length)
    else specAfterTok tok cs

/-- Spec-worded per-field extraction (§4.3), for refinement comparison. -/
def specFieldExtract (tok : String) (dflt : String) (response : List Char) :
    String :=
  match (splitOnChar '\n' response).find? (fun l => pyContains l tok.data) with
  | none => dflt
  | some line =>
    match specAfterTok tok.data line with
    | none => dflt
    | some rest => String.mk (pyStrip rest)

/-- One row of the `rss_items` table: exactly the six columns that
`RSSDatabase.store_rss_items` inserts (there is no `guid` column). -/
structure StoredItem where
  title : String
  link : String
  description : String
  content : String
  published : Datetime
  source : String
deriving DecidableEq, Repr

/-- The duplicate check of `store_rss_items` (line 106):
`SELECT id FROM rss_items WHERE link = ? AND source = ?`. -/
def itemExists (db : List StoredItem) (link source : String) : Bool :=
  db.any (fun row => row.link = link && row.source = source)

/-- The row inserted for an item (lines 111-122). -/
def toStoredItem (item : RSSItem) : StoredItem :=
  { title := item.title
    link := item.link
    description := item.description
    content := item.content
    published := item.published
    source := item.source }

/-- `RSSDatabase.store_rss_items` (`src/database/RSSDatabase.py` lines
89-131) on a list of `RSSItem`s, as its signature declares: for each item
in order, skip when a row with the same `(link, source)` already exists
(the `SELECT` runs on the same open cursor, so rows inserted earlier in
the same call are visible), otherwise insert and count.  Returns the new
table contents and the number actually inserted. -/
def store_rss_items (db : List StoredItem) (items : List RSSItem) :
    List StoredItem × Nat :=
  match items with
  | [] => (db, 0)
  | item :: rest =>
    if itemExists db item.link item.source then
      store_rss_items db rest
    else
      let r := store_rss_items (db ++ [toStoredItem item]) rest
      (r.1, r.2 + 1)

/-- Identity of an item as worded by the specification (§3): the
source-provided globally unique id if present, else the link.  Used only
to compare the spec wording against the code. -/
def specIdentity (item : RSSItem) : String :=
  if item.guid ≠ "" then item.guid else item.link

/-- Column lists of the three tables exactly as created by
`RSSDatabase._create_tables` (`src/database/RSSDatabase.py` lines 31-87). -/
def tableColumns : String → List String
  | "rss_items" =>
    ["id", "title", "link", "description", "content", "published", "source"]
  | "llm_results" =>
    ["id", "item_id", "item_title", "item_source", "query", "relevance_score",
     "relevance", "explanation", "key_information", "summary", "llm_response",
     "processed_at", "created_at"]
  | "sources" => ["id", "name", "url", "last_consumed", "created_at"]
  | _ => []

/-- Column references of the `SELECT` issued by
`RSSDatabase.get_relevant_items` (lines 219-230), in the order the
statement names them.  SQLite resolves these against the schema when
preparing the statement and raises `sqlite3.OperationalError`
(`no such column`) on the first unresolvable one. -/
def getRelevantItemsRefs : List (String × String) :=
  [("rss_items", "guid"), ("rss_items", "title"), ("rss_items", "link"),
   ("rss_items", "description"), ("rss_items", "content"),
   ("rss_items", "published"), ("rss_items", "source"),
   ("rss_items", "created_at"),
   ("llm_results", "relevance_score"), ("llm_results", "relevance"),
   ("llm_results", "explanation"), ("llm_results", "key_information"),
   ("llm_results", "summary"), ("llm_results", "llm_response"),
   ("llm_results", "item_guid"), ("llm_results", "query")]

/-- First column reference of a statement that the schema cannot resolve. -/
def firstMissingColumn (refs : List (String × String)) :
    Option (String × String) :=
  refs.find? (fun p => ¬ p.2 ∈ tableColumns p.1)

/-- A row of the `llm_results` table (the columns of `_create_tables`;
`store_llm_results` in fact fails to insert any because it names a
nonexistent `item_guid` column, so instances only arise in hypothetical
states). -/
structure LLMRow where
  item_id : Nat
  query : String
  relevance_score : Int
  processed_at : String
deriving DecidableEq, Repr

/-- Joint state of the two item-related tables. -/
structure DBState where
  rss_items : List StoredItem
  llm_results : List LLMRow
deriving DecidableEq, Repr

/-- `RSSDatabase.get_relevant_items` (lines 204-239).  Preparing the
`SELECT` resolves its column references against the schema; since
`rss_items` has no `guid`/`created_at` column and `llm_results` has no
`item_guid` column, preparation fails and the uncaught
`sqlite3.OperationalError` propagates — modelled as `.error`.  The `.ok`
branch is provably unreachable (`firstMissingColumn` is `some` on this
reference list) and moreover could not be expressed over the real row
types, which lack the joined columns; it returns the empty result. -/
def get_relevant_items (db : DBState) (query : String) (min_score : Int)
    (limit : Nat) : Except String (List (StoredItem × LLMRow)) :=
  match firstMissingColumn getRelevantItemsRefs with
  | some p => .error ("no such column: " ++ p.1 ++ "." ++ p.2)
  | none =>
    .ok (((db.rss_items.product db.llm_results).filter
      (fun r => r.2.query = query && min_score ≤ r.2.relevance_score)).take
        limit)

/-- Column references of the two `DELETE` statements of
`RSSDatabase.cleanup_old_items` (lines 315-327), in statement order. -/
def cleanupRefs : List (String × String) :=
  [("llm_results", "item_guid"), ("rss_items", "guid"),
   ("rss_items", "published")]

/-- `RSSDatabase.cleanup_old_items` (lines 303-335).  The first `DELETE`
names `llm_results.item_guid` and `rss_items.guid`, neither of which the
schema of `_create_tables` has, so preparing it raises
`sqlite3.OperationalError`; the surrounding `except sqlite3.Error`
swallows it and the function returns with the database unchanged.  The
fall-through branch (reachable only if every referenced column existed)
is provably dead on this schema and returns the state unchanged as well,
since the intended deletion is not even expressible over rows that have
no `guid` column. -/
def cleanup_old_items (db : DBState) (days_old : Nat) : DBState :=
  match firstMissingColumn cleanupRefs with
  | some _ => db
  | none => db

/-- The dictionary built by `RSSConsumer._rss_item_to_dict`
(`src/rss_consumer.py` lines 151-161). -/
structure ItemDict where
  guid : String
  title : String
  link : String
  description : String
  content : String
  published : Datetime
  source : String
deriving DecidableEq, Repr

/-- `RSSConsumer._rss_item_to_dict`. -/
def rss_item_to_dict (item : RSSItem) : ItemDict :=
  { guid := item.guid
    title := item.title
    link := item.link
    description := item.description
    content := item.content
    published := item.published
    source := item.source }

/-- `RSSDatabase.store_rss_items` as actually invoked by
`RSSConsumer.consume_all_sources` (line 81), i.e. on the list of
dictionaries produced by `_rss_item_to_dict`.  The loop body evaluates
`item.link` on a `dict`, which raises `AttributeError` on the first item;
the per-item handler catches only `sqlite3.Error`, so the exception
propagates out of the call — modelled as `.error`.  On an empty list the
loop body never runs and the call returns `(db, 0)`. -/
def store_rss_items_on_dicts (db : List StoredItem) (items : List ItemDict) :
    Except String (List StoredItem × Nat) :=
  match items with
  | [] => .ok (db, 0)
  | _ :: _ => .error "AttributeError: dict object has no attribute link"

/-- A source as seen by `consume_all_sources`: its name and the outcome
of its external `consume()` call (a raised exception or a list of items). -/
structure PySource where
  name : String
  consumeResult : Except String (List RSSItem)

/-- Per-source entry of the `source_stats` dictionary built by
`consume_all_sources`: either `{error: ...}` or the four counters. -/
inductive SourceStat
  | errored (msg : String)
  | ok (items_found items_stored llm_processed llm_stored : Nat)
deriving DecidableEq, Repr

/-- The aggregate dictionary returned by `consume_all_sources`
(lines 143-149). -/
structure RunStats where
  total_sources : Nat
  total_items : Nat
  total_processed : Nat
  total_stored : Nat
  source_stats : List (String × SourceStat)
deriving DecidableEq, Repr

/-- State threaded through the source loop of `consume_all_sources`. -/
structure LoopState where
  db : List StoredItem
  total_items : Nat
  total_processed : Nat
  total_stored : Nat
  source_stats : List (String × SourceStat)
deriving DecidableEq, Repr

/-- One iteration of the source loop of `RSSConsumer.consume_all_sources`
(`src/rss_consumer.py` lines 66-122).  Inside `try`: `source.consume()`
(an exception is caught by the per-source handler and recorded as an
`error` stat); an empty item list `continue`s without a stats entry;
otherwise `total_items` grows by the number found, the items are
converted to dicts and passed to `store_rss_items`, which raises
`AttributeError` (see `store_rss_items_on_dicts`) — caught by the same
per-source handler, so the source is recorded as errored.  The rest of
the body (LLM processing, `store_source_info`, the success stats entry)
is therefore unreachable for every source. -/
def consumeOneSource (st : LoopState) (src : PySource) : LoopState :=
  match src.consumeResult with
  | .error e => { st with source_stats := st.source_stats ++ [(src.name, .errored e)] }
  | .ok [] => st
  | .ok items =>
    match store_rss_items_on_dicts st.db (items.map rss_item_to_dict) with
    | .error e =>
      { st with
        total_items := st.total_items + items.length
        source_stats := st.source_stats ++ [(src.name, .errored e)] }
    | .ok (db', stored) =>
      -- unreachable: `items` is nonempty here, so the store call errors
      { st with
        db := db'
        total_items := st.total_items + items.length
        total_stored := st.total_stored + stored }

/-- `RSSConsumer.consume_all_sources` (lines 46-149): `none` models the
early `return {}` when no sources are configured; otherwise the loop
runs over every source and the aggregate statistics are returned together
with the final `rss_items` table. -/
def consume_all_sources (db : List StoredItem) (sources : List PySource) :
    Option RunStats × List StoredItem :=
  match sources with
  | [] => (none, db)
  | _ =>
    let final := sources.foldl consumeOneSource ⟨db, 0, 0, 0, []⟩
    (some { total_sources := sources.length
            total_items := final.total_items
            total_processed := final.total_processed
            total_stored := final.total_stored
            source_stats := final.source_stats }, final.db)

/-- Query-ledger row.  Modelled from the spec: `src/main.py` calls
`database.get_queries(False)` and `database.resolve_query(id, title,
source)`, but no implementation of the queries table or of these methods
exists anywhere in the repository snapshot; §3/§4.2 of the specification
describe the row as `{id, text, state ∈ {Open, Resolved},
resolvedByItemIdentity}`. -/
structure Query where
  id : Nat
  text : String
  resolved : Bool
  resolvedByItemIdentity : Option String
deriving DecidableEq, Repr

/-- Modelled from the spec: `resolve(queryId, resolvingItem)` of §4.2 is
a single conditional update — the rows with the given id that are still
`Open` become `Resolved` by the given item identity, and the call reports
success iff such a row existed (first writer wins; a call on an
already-resolved query changes nothing and returns false). -/
def resolve_query (qs : List Query) (qid : Nat) (ident : String) :
    List Query × Bool :=
  (qs.map (fun q =>
      if q.id = qid ∧ q.resolved = false then
        { q with resolved := true, resolvedByItemIdentity := some ident }
      else q),
   qs.any (fun q => q.id = qid && !q.resolved))

/-- Modelled from the spec: `listOpen()` of §4.2 /
`get_queries(resolved)` as called by `src/main.py` line 29. -/
def get_queries (qs : List Query) (resolvedFlag : Bool) : List Query :=
  qs.filter (fun q => q.resolved = resolvedFlag)

/-- One step of the per-query inner loop of `src/main.py` lines 31-37:
if the oracle judges the item a match, `resolve_query` is called and a
successful call is counted. -/
def resolveStep (qid : Nat) (isMatch : String → Bool)
    (st : List Query × Nat) (ident : String) : List Query × Nat :=
  if isMatch ident then
    let r := resolve_query st.1 qid ident
    (r.1, st.2 + (if r.2 then 1 else 0))
  else st

/-- The per-query inner loop of `src/main.py` lines 31-37, specialised to
one query: the item identities are evaluated in their fixed fetch order
and `resolve_query` is called for each one the oracle judges a match.
Returns the final ledger and the number of resolve calls that succeeded. -/
def resolve_matching (qs : List Query) (qid : Nat) (idents : List String)
    (isMatch : String → Bool) : List Query × Nat :=
  idents.foldl (resolveStep qid isMatch) (qs, 0)

/-! ### Supporting lemmas -/

/-- `splitOnChar` returns a head segment that is a prefix of the input and
tail segments that are infixes of the input. -/
theorem splitOnChar_spec (sep : Char) :
    ∀ l : List Char, ∃ seg segs, splitOnChar sep l = seg :: segs ∧
      seg <+: l ∧ ∀ s ∈ segs, s <:+: l := by
  intro l
  induction l with
  | nil => exact ⟨[], [], rfl, List.nil_prefix, by simp⟩
  | cons x xs ih =>
    obtain ⟨seg, segs, heq, hpre, hinf⟩ := ih
    by_cases hx : x = sep
    · refine ⟨[], seg :: segs, ?_, List.nil_prefix, ?_⟩
      · simp [splitOnChar, heq, hx]
      · intro s hs
        rcases List.mem_cons.mp hs with h | h
        · exact h ▸ List.infix_cons hpre.isInfix
        · exact List.infix_cons (hinf s h)
    · refine ⟨x :: seg, segs, ?_, ?_, ?_⟩
      · simp [splitOnChar, heq, hx]
      · exact List.cons_prefix_cons.mpr ⟨rfl, hpre⟩
      · intro s hs; exact List.infix_cons (hinf s hs)

/-- Every segment of `splitOnChar` is an infix of the input. -/
theorem infix_of_mem_splitOnChar {sep : Char} {l s : List Char}
    (h : s ∈ splitOnChar sep l) : s <:+: l := by
  obtain ⟨seg, segs, heq, hpre, hinf⟩ := splitOnChar_spec sep l
  rw [heq] at h
  rcases List.mem_cons.mp h with h | h
  · exact h ▸ hpre.isInfix
  · exact hinf s h

/-- A list without the separator splits into the single segment itself. -/
theorem splitOnChar_eq_single {sep : Char} {l : List Char} (h : sep ∉ l) :
    splitOnChar sep l = [l] := by
  induction l with
  | nil => rfl
  | cons x xs ih =>
    have hx : x ≠ sep := fun hc => h (hc ▸ List.mem_cons_self x xs)
    have hxs : sep ∉ xs := fun hc => h (List.mem_cons_of_mem x hc)
    simp [splitOnChar, ih hxs, hx]

/-- Splitting a list whose head part is separator-free peels off that part. -/
theorem splitOnChar_append_cons {sep : Char} {a : List Char} (rest : List Char)
    (h : sep ∉ a) :
    splitOnChar sep (a ++ sep :: rest) = a :: splitOnChar sep rest := by
  induction a with
  | nil =>
    obtain ⟨seg, segs, heq, -, -⟩ := splitOnChar_spec sep rest
    simp [splitOnChar, heq]
  | cons x xs ih =>
    have hx : x ≠ sep := fun hc => h (hc ▸ List.mem_cons_self x xs)
    have hxs : sep ∉ xs := fun hc => h (List.mem_cons_of_mem x hc)
    simp [splitOnChar, ih hxs, hx]

/-- The Python pattern `[x for x in l if p x][0]` (guarded by emptiness)
selects exactly the first element satisfying `p`. -/
theorem filter_head?_eq_find? (p : α → Bool) :
    ∀ l : List α, (l.filter p).head? = l.find? p := by
  intro l
  induction l with
  | nil => rfl
  | cons a l ih =>
    by_cases h : p a = true
    · simp [List.filter_cons, List.find?_cons, h]
    · simp [List.filter_cons, List.find?_cons, h, ih]

/-- If the token is not a substring of the response, no response line
contains it, so the line lookup is empty. -/
theorem lineFor_eq_none {tok : String} {response : List Char}
    (h : ¬ tok.data <:+: response) : lineFor tok response = none := by
  unfold lineFor
  have hfilter :
      (splitOnChar '\n' response).filter
        (fun l => pyContains l tok.data) = [] := by
    rw [List.filter_eq_nil_iff]
    intro l hl hc
    exact h ((of_decide_eq_true hc).trans (infix_of_mem_splitOnChar hl))
  rw [hfilter]; rfl

/-- The store grows by exactly the number of insertions it reports. -/
theorem store_rss_items_length (items : List RSSItem) :
    ∀ db : List StoredItem,
      (store_rss_items db items).1.length =
        db.length + (store_rss_items db items).2 := by
  induction items with
  | nil => intro db; simp [store_rss_items]
  | cons item rest ih =>
    intro db
    cases h : itemExists db item.link item.source with
    | true => simp [store_rss_items, h, ih db]
    | false =>
      have hrec := ih (db ++ [toStoredItem item])
      simp [store_rss_items, h] at hrec ⊢
      omega

/-- A `resolve_query` call on a ledger whose rows for the query are all
already resolved changes nothing and reports failure. -/
theorem resolve_query_noop {qs : List Query} {qid : Nat}
    (h : ∀ q ∈ qs, q.id = qid → q.resolved = true) (ident : String) :
    resolve_query qs qid ident = (qs, false) := by
  unfold resolve_query
  rw [Prod.mk.injEq]
  constructor
  · have : ∀ q ∈ qs,
        (if q.id = qid ∧ q.resolved = false then
          { q with resolved := true, resolvedByItemIdentity := some ident }
         else q) = q := by
      intro q hq
      rw [if_neg]
      rintro ⟨h1, h2⟩
      rw [h q hq h1] at h2
      exact Bool.noConfusion h2
    have hmap := List.map_congr_left this
    simpa using hmap
  · rw [List.any_eq_false]
    intro q hq
    simp only [Bool.and_eq_true, decide_eq_true_eq, Bool.not_eq_true',
      not_and]
    intro h1
    simp [h q hq h1]

/-- The matching loop is inert on a ledger whose rows for the query are
all already resolved: no further resolve call succeeds. -/
theorem resolve_matching_noop {qs : List Query} {qid : Nat}
    (h : ∀ q ∈ qs, q.id = qid → q.resolved = true)
    (isMatch : String → Bool) (idents : List String) (c : Nat) :
    idents.foldl (resolveStep qid isMatch) (qs, c) = (qs, c) := by
  induction idents with
  | nil => rfl
  | cons i rest ih =>
    have hstep : resolveStep qid isMatch (qs, c) i = (qs, c) := by
      unfold resolveStep
      by_cases hm : isMatch i = true
      · simp [hm, resolve_query_noop h i]
      · simp [hm]
    rw [List.foldl_cons, hstep]
    exact ih

/-- After resolving an all-open query with identity `ident`, every row of
that query is resolved by exactly that identity. -/
theorem resolve_query_resolves {qs : List Query} {qid : Nat}
    (hopen : ∀ q ∈ qs, q.id = qid → q.resolved = false) (ident : String) :
    ∀ q ∈ (resolve_query qs qid ident).1, q.id = qid →
      q.resolved = true ∧ q.resolvedByItemIdentity = some ident := by
  intro q hq hid
  unfold resolve_query at hq
  simp only [List.mem_map] at hq
  obtain ⟨q₀, hq₀, hfq⟩ := hq
  by_cases hc : q₀.id = qid ∧ q₀.resolved = false
  · rw [if_pos hc] at hfq
    subst hfq
    exact ⟨rfl, rfl⟩
  · rw [if_neg hc] at hfq
    subst hfq
    exact absurd ⟨hid, hopen q₀ hq₀ hid⟩ hc

/-- `resolve_query` maps an already-resolved row to itself. -/
theorem resolve_query_fixes_resolved {qs : List Query} {qid : Nat}
    (ident : String) :
    List.Forall₂ (fun q' q => q.resolved = true → q' = q)
      (resolve_query qs qid ident).1 qs := by
  unfold resolve_query
  induction qs with
  | nil => exact List.Forall₂.nil
  | cons q rest ih =>
    refine List.Forall₂.cons ?_ ih
    intro hres
    show (if q.id = qid ∧ q.resolved = false then
      { q with resolved := true, resolvedByItemIdentity := some ident }
    else q) = q
    rw [if_neg]
    rintro ⟨-, h2⟩
    rw [hres] at h2
    exact Bool.noConfusion h2

/-! ### Claim theorems -/

/-- Sample timestamp used by concrete witnesses. -/
def sampleDatetime : Datetime := ⟨2024, 1, 2, 3, 4, 5⟩

/-- Sample item used by concrete witnesses. -/
def sampleItem : RSSItem :=
  { title := "Title"
    link := "http://example.com/a"
    description := "Desc"
    published := sampleDatetime
    content := "Content"
    source := "SourceA"
    guid := "guid-1" }

/-- C1.  Modelled from the spec (the queries table and the
`resolve_query`/`get_queries` implementations called by `src/main.py`
are absent from the repository).  Resolution is at most once:
(i) a `resolve_query` call succeeds only when some row of the query is
currently open; (ii) on a ledger where the query is already resolved the
call is a no-op returning false, never an error; (iii) already-resolved
rows are never changed (no `Resolved → Open` transition, and
`resolvedByItemIdentity` is immutable once set); (iv) when one open query
is matched by every one of `ident :: idents` in evaluation order, exactly
one resolve call succeeds and the query ends resolved by the
first-evaluated identity. -/
theorem resolve_at_most_once :
    (∀ (qs : List Query) (qid : Nat) (ident : String),
        (resolve_query qs qid ident).2 = true →
          ∃ q ∈ qs, q.id = qid ∧ q.resolved = false) ∧
    (∀ (qs : List Query) (qid : Nat) (ident : String),
        (∀ q ∈ qs, q.id = qid → q.resolved = true) →
          resolve_query qs qid ident = (qs, false)) ∧
    (∀ (qs : List Query) (qid : Nat) (ident : String),
        List.Forall₂ (fun q' q => q.resolved = true → q' = q)
          (resolve_query qs qid ident).1 qs) ∧
    (∀ (qs : List Query) (qid : Nat) (ident : String)
        (idents : List String) (isMatch : String → Bool),
        (∃ q ∈ qs, q.id = qid) →
        (∀ q ∈ qs, q.id = qid → q.resolved = false) →
        (∀ i ∈ ident :: idents, isMatch i = true) →
          (resolve_matching qs qid (ident :: idents) isMatch).2 = 1 ∧
          ∀ q ∈ (resolve_matching qs qid (ident :: idents) isMatch).1,
            q.id = qid →
              q.resolved = true ∧ q.resolvedByItemIdentity = some ident) := by
  refine ⟨?_, ?_, ?_, ?_⟩
  · intro qs qid ident h
    unfold resolve_query at h
    simp only [List.any_eq_true, Bool.and_eq_true, decide_eq_true_eq,
      Bool.not_eq_true'] at h
    obtain ⟨q, hq, h1, h2⟩ := h
    exact ⟨q, hq, h1, h2⟩
  · intro qs qid ident h
    exact resolve_query_noop h ident
  · intro qs qid ident
    exact resolve_query_fixes_resolved ident
  · intro qs qid ident idents isMatch hex hopen hmatch
    have hm0 : isMatch ident = true := hmatch ident (List.mem_cons_self _ _)
    obtain ⟨q0, hq0, hid0⟩ := hex
    have hsuc : (resolve_query qs qid ident).2 = true := by
      unfold resolve_query
      simp only [List.any_eq_true, Bool.and_eq_true, decide_eq_true_eq,
        Bool.not_eq_true']
      exact ⟨q0, hq0, hid0, hopen q0 hq0 hid0⟩
    have hres : ∀ q ∈ (resolve_query qs qid ident).1, q.id = qid →
        q.resolved = true ∧ q.resolvedByItemIdentity = some ident :=
      resolve_query_resolves hopen ident
    have hstep : resolveStep qid isMatch (qs, 0) ident =
        ((resolve_query qs qid ident).1, 1) := by
      unfold resolveStep
      simp [hm0, hsuc]
    have hfold : resolve_matching qs qid (ident :: idents) isMatch =
        ((resolve_query qs qid ident).1, 1) := by
      unfold resolve_matching
      rw [List.foldl_cons, hstep]
      exact resolve_matching_noop (fun q hq hid => (hres q hq hid).1)
        isMatch idents 1
    rw [hfold]
    exact ⟨rfl, hres⟩

/-- C1 witness: on the concrete ledger with the single open query 1 and
three matching item identities, exactly one resolve succeeds, the query
ends resolved by the first identity, and a repeated call on the resolved
ledger is a no-op returning false. -/
theorem resolve_at_most_once_witness :
    ((resolve_matching [⟨1, "find ai news", false, none⟩] 1
        ["item-a", "item-b", "item-c"] (fun _ => true)).2 = 1 ∧
      ∀ q ∈ (resolve_matching [⟨1, "find ai news", false, none⟩] 1
        ["item-a", "item-b", "item-c"] (fun _ => true)).1,
        q.id = 1 → q.resolved = true ∧
          q.resolvedByItemIdentity = some "item-a") ∧
    resolve_query [⟨1, "find ai news", true, some "item-a"⟩] 1 "item-b" =
      ([⟨1, "find ai news", true, some "item-a"⟩], false) := by
  constructor
  · exact resolve_at_most_once.2.2.2
      [⟨1, "find ai news", false, none⟩] 1 "item-a" ["item-b", "item-c"]
      (fun _ => true)
      (by decide) (by decide) (by intro i _; rfl)
  · exact resolve_at_most_once.2.1
      [⟨1, "find ai news", true, some "item-a"⟩] 1 "item-b" (by decide)

/-- Item used by the C2 counterexample: stored first. -/
def c2itemA : RSSItem :=
  { title := "Title 1"
    link := "http://example.com/a"
    description := "d"
    published := sampleDatetime
    content := "c"
    source := "SourceA"
    guid := "shared-guid" }

/-- Item used by the C2 counterexample: same guid (hence same
spec-identity) and same source as `c2itemA`, but a different link. -/
def c2itemB : RSSItem :=
  { title := "Title 2"
    link := "http://example.com/b"
    description := "d"
    published := sampleDatetime
    content := "c"
    source := "SourceA"
    guid := "shared-guid" }

/-- C2 counterexample.  The claim keys deduplication on the derived
identity (guid if present, else link) plus source.  `c2itemB` has the
same identity (`shared-guid`) and the same source as the already-stored
`c2itemA`, so the claim requires `store_rss_items` to skip it and return
0; the code deduplicates on `(link, source)` only (line 106), the links
differ, and the item is inserted with return value 1. -/
theorem store_items_identity_dedup_counterexample :
    specIdentity c2itemB = specIdentity c2itemA ∧
    c2itemB.source = c2itemA.source ∧
    store_rss_items [] [c2itemA] = ([toStoredItem c2itemA], 1) ∧
    store_rss_items [toStoredItem c2itemA] [c2itemB] =
      ([toStoredItem c2itemA, toStoredItem c2itemB], 1) := by
  refine ⟨rfl, rfl, rfl, ?_⟩
  have h : itemExists [toStoredItem c2itemA] c2itemB.link c2itemB.source
      = false := by decide
  simp [store_rss_items, h]

/-- C2 as amended: deduplication keys on `(link, sourceName)` (not on the
guid-derived identity).  Storing an item whose `(link, source)` is absent
inserts it and returns 1; storing the same item again is skipped without
error, returning 0 and leaving the store unchanged; in general the store
grows by exactly the count `store_rss_items` returns. -/
theorem store_items_dedup_idempotent :
    (∀ (db : List StoredItem) (item : RSSItem),
        itemExists db item.link item.source = false →
          store_rss_items db [item] = (db ++ [toStoredItem item], 1) ∧
          store_rss_items (db ++ [toStoredItem item]) [item] =
            (db ++ [toStoredItem item], 0)) ∧
    (∀ (db : List StoredItem) (items : List RSSItem),
        (store_rss_items db items).1.length =
          db.length + (store_rss_items db items).2) := by
  constructor
  · intro db item h
    constructor
    · simp [store_rss_items, h]
    · have hdup : itemExists (db ++ [toStoredItem item]) item.link
          item.source = true := by
        simp [itemExists, List.any_append, toStoredItem]
      simp [store_rss_items, hdup]
  · intro db items
    exact store_rss_items_length items db

/-- C2 witness: storing `sampleItem` into the empty store inserts it and
returns 1, and the repeated call returns 0 without growing the store. -/
theorem store_items_dedup_idempotent_witness :
    store_rss_items [] [sampleItem] = ([toStoredItem sampleItem], 1) ∧
    store_rss_items [toStoredItem sampleItem] [sampleItem] =
      ([toStoredItem sampleItem], 0) := by
  have h := store_items_dedup_idempotent.1 [] sampleItem (by decide)
  simpa using h

/-- C9.  Duplicate detection keys only on `(link, source)`: when a stored
row with the incoming item's link and source already exists, the whole
call leaves the table exactly as it was (in particular the existing row
keeps its title, description, content and published time — there is no
update path) and reports 0 stored. -/
theorem duplicate_item_store_unchanged :
    ∀ (db : List StoredItem) (item : RSSItem),
      itemExists db item.link item.source = true →
        store_rss_items db [item] = (db, 0) := by
  intro db item h
  simp [store_rss_items, h]

/-- C9 witness: an incoming item agreeing with a stored row only on link
and source — title, description, content, published time and guid all
differ — is skipped and the stored row survives unchanged. -/
theorem duplicate_item_store_unchanged_witness :
    store_rss_items
      [{ title := "Old title", link := "http://example.com/a",
         description := "old desc", content := "old content",
         published := ⟨2023, 5, 6, 7, 8, 9⟩, source := "SourceA" }]
      [{ title := "New title", link := "http://example.com/a",
         description := "new desc", published := sampleDatetime,
         content := "new content", source := "SourceA",
         guid := "new-guid" }] =
    ([{ title := "Old title", link := "http://example.com/a",
        description := "old desc", content := "old content",
        published := ⟨2023, 5, 6, 7, 8, 9⟩, source := "SourceA" }], 0) :=
  duplicate_item_store_unchanged _ _ (by decide)

/-- C3.  The response parser is total and defaulting: an input in which
none of the five labeled fields occurs as a substring parses to the fully
populated default record (`score = 0`, `relevance = "Unknown"`, empty
text fields, raw response and item context preserved); and the
degradation record built on a parsing failure carries
`relevance = "Error"` with the raw input preserved verbatim in
`llm_response`.  Totality holds by construction: every per-field
extraction catches its own `ValueError`/`IndexError` in the source, so
the embedding of the normal path is a total function. -/
theorem parser_total_defaulting :
    (∀ (q r : String) (item : RSSItem),
        ¬("Relevance Score:".data <:+: r.data) →
        ¬("Relevance:".data <:+: r.data) →
        ¬("Explanation:".data <:+: r.data) →
        ¬("Key Information:".data <:+: r.data) →
        ¬("Summary:".data <:+: r.data) →
          parse_llm_response q r item = defaultResult q r item) ∧
    (∀ (e q r : String) (item : RSSItem),
        (parse_llm_response_error e q r item).relevance = "Error" ∧
        (parse_llm_response_error e q r item).llm_response = r) := by
  constructor
  · intro q r item n1 n2 n3 n4 n5
    simp [parse_llm_response, defaultResult, extractScore, extractField,
      lineFor_eq_none n1, lineFor_eq_none n2, lineFor_eq_none n3,
      lineFor_eq_none n4, lineFor_eq_none n5]
  · intro e q r item
    exact ⟨rfl, rfl⟩

/-- C3 witness: a response containing no labeled field at all parses to
the default record. -/
theorem parser_total_defaulting_witness :
    parse_llm_response "ai news" "hello world" sampleItem =
      defaultResult "ai news" "hello world" sampleItem :=
  parser_total_defaulting.1 "ai news" "hello world" sampleItem
    (by decide) (by decide) (by decide) (by decide) (by decide)

/-- C4 counterexample.  The claim requires every parsed score to lie in
`[0, 100]`, with `Relevance Score: 150` clamped to 100.  The code
(`src/llm_processor.py` line 117) stores `int(score_text)` with no
clamping, so the parsed score is 150. -/
theorem score_clamping_counterexample :
    (parse_llm_response "q" "Relevance Score: 150\nRelevance: Yes"
      sampleItem).relevance_score = 150 ∧
    ¬((150 : Int) ≤ 100) := by
  constructor
  · rfl
  · decide

/-- C4 as amended: the parsed relevance score is used exactly as parsed,
without clamping — `Relevance Score: 150` yields 150, `Relevance Score:
-5` yields -5, and an in-range `Relevance Score: 42` yields 42. -/
theorem score_unclamped :
    (parse_llm_response "q" "Relevance Score: 150\nRelevance: Yes"
      sampleItem).relevance_score = 150 ∧
    (parse_llm_response "q" "Relevance Score: -5\nRelevance: No"
      sampleItem).relevance_score = -5 ∧
    (parse_llm_response "q" "Relevance Score: 42\nRelevance: Yes"
      sampleItem).relevance_score = 42 := by
  refine ⟨rfl, rfl, rfl⟩

/-- C5 counterexample.  The claim (and spec §4.3) takes everything after
the first colon following the label token, so for the response
`Summary: a:b` the summary would be `a:b` (`specFieldExtract` embeds the
claim wording).  The code takes `line.split(chr(58))[1]` — the segment
between the first and the second colon of the whole line — yielding `a`. -/
theorem field_extraction_counterexample :
    specFieldExtract "Summary:" "" "Summary: a:b".data = "a:b" ∧
    (parse_llm_response "q" "Summary: a:b" sampleItem).summary = "a" ∧
    ("a" : String) ≠ "a:b" := by
  refine ⟨rfl, rfl, by decide⟩

/-- C5 as amended: (i) for every field the parser uses the first response
line containing the field's label token (the filter-then-index pattern of
the code equals `find?` over the lines in order); (ii) from that line it
takes the segment of the whole line between its first and second colon
(`line.split(chr(58))[1]`), trimmed — exhibited for a one-line `Summary:`
response whose value itself contains a colon; (iii)/(iv) each field is a
function of its own first matching line alone, so a malformed field
leaves every other field unaffected and, when its own extraction fails,
only that field keeps its default. -/
theorem field_extraction_policy :
    (∀ (tok : String) (r : List Char),
        lineFor tok r =
          (splitOnChar '\n' r).find? (fun l => pyContains l tok.data)) ∧
    (∀ (b c : List Char) (q : String) (item : RSSItem),
        ':' ∉ b → '\n' ∉ b → '\n' ∉ c →
          (parse_llm_response q
            (String.mk ("Summary:".data ++ b ++ ':' :: c)) item).summary =
            String.mk (pyStrip b)) ∧
    (∀ (tok dflt : String) (r₁ r₂ : List Char),
        lineFor tok r₁ = lineFor tok r₂ →
          extractField tok dflt r₁ = extractField tok dflt r₂) ∧
    (∀ (r₁ r₂ : List Char),
        lineFor "Relevance Score:" r₁ = lineFor "Relevance Score:" r₂ →
          extractScore r₁ = extractScore r₂) := by
  refine ⟨?_, ?_, ?_, ?_⟩
  · intro tok r
    unfold lineFor
    exact filter_head?_eq_find? _ _
  · intro b c q item hb hbn hcn
    have hline : "Summary:".data ++ b ++ ':' :: c =
        "Summary".data ++ ':' :: (b ++ ':' :: c) := by
      simp
    have hnl : '\n' ∉ "Summary:".data ++ b ++ ':' :: c := by
      intro hmem
      rcases List.mem_append.mp hmem with h | h
      · rcases List.mem_append.mp h with h' | h'
        · revert h'; decide
        · exact hbn h'
      · rcases List.mem_cons.mp h with h' | h'
        · exact absurd h'.symm (by decide)
        · exact hcn h'
    have hsplit1 : splitOnChar '\n' ("Summary:".data ++ b ++ ':' :: c) =
        [("Summary:".data ++ b ++ ':' :: c)] := splitOnChar_eq_single hnl
    have hcontains :
        pyContains ("Summary:".data ++ b ++ ':' :: c) "Summary:".data
          = true := by
      apply decide_eq_true
      have hpre : "Summary:".data <+: "Summary:".data ++ (b ++ ':' :: c) :=
        List.prefix_append _ _
      rw [← List.append_assoc] at hpre
      exact hpre.isInfix
    have hfor : lineFor "Summary:" ("Summary:".data ++ b ++ ':' :: c) =
        some ("Summary:".data ++ b ++ ':' :: c) := by
      unfold lineFor
      rw [hsplit1, List.filter_cons, hcontains]
      rfl
    have hcolon : splitOnChar ':' ("Summary:".data ++ b ++ ':' :: c) =
        "Summary".data :: b :: splitOnChar ':' c := by
      rw [hline, splitOnChar_append_cons (b ++ ':' :: c) (by decide),
        splitOnChar_append_cons c hb]
    show extractField "Summary:" ""
      (String.mk ("Summary:".data ++ b ++ ':' :: c)).data =
        String.mk (pyStrip b)
    unfold extractField
    rw [show (String.mk ("Summary:".data ++ b ++ ':' :: c)).data =
      "Summary:".data ++ b ++ ':' :: c from rfl, hfor]
    simp only [hcolon]
    rfl
  · intro tok dflt r₁ r₂ h
    unfold extractField
    rw [h]
  · intro r₁ r₂ h
    unfold extractScore
    rw [h]

/-- C5 witness: on the concrete one-line response `Summary: one:two` the
parser yields the trimmed between-colons segment `one`, and two responses
with the same first `Summary:` line yield the same summary field. -/
theorem field_extraction_policy_witness :
    (parse_llm_response "q"
      (String.mk ("Summary:".data ++ " one ".data ++ ':' :: "two".data))
      sampleItem).summary = String.mk (pyStrip " one ".data) ∧
    extractField "Summary:" "" "abc".data = extractField "Summary:" "" "xz".data := by
  constructor
  · exact field_extraction_policy.2.1 " one ".data "two".data "q" sampleItem
      (by decide) (by decide) (by decide)
  · exact field_extraction_policy.2.2.1 "Summary:" "" "abc".data "xz".data
      (by decide)

/-- C10.  Every record the parser produces — on the normal path and on
the error path — carries `processed_at` equal to the originating item's
published time rendered in ISO format (neither function consults any
clock, so it can never be the evaluation time) and `llm_response` equal
to the raw oracle response verbatim. -/
theorem parser_passthrough_fields :
    ∀ (q r e : String) (item : RSSItem),
      (parse_llm_response q r item).processed_at =
        item.published.isoformat ∧
      (parse_llm_response q r item).llm_response = r ∧
      (parse_llm_response_error e q r item).processed_at =
        item.published.isoformat ∧
      (parse_llm_response_error e q r item).llm_response = r :=
  fun _ _ _ _ => ⟨rfl, rfl, rfl, rfl⟩

/-- C6 (code bug).  In the scenario of the claim — Source A's fetch
raises, Source B's fetch succeeds with one item — the run does continue
past A (the per-source handler isolates the exception), but B does NOT
end with its items stored: `consume_all_sources` converts the items to
dicts (`_rss_item_to_dict`) before calling `store_rss_items`, whose loop
reads `item.link` as an attribute and raises `AttributeError`, which the
per-item handler (catching only `sqlite3.Error`) does not stop; the
per-source handler then records B as errored.  So for every starting
store and every item, the final statistics mark BOTH sources errored,
nothing is stored, and the store is unchanged. -/
theorem per_source_isolation_run :
    ∀ (db : List StoredItem) (item : RSSItem),
      consume_all_sources db
        [⟨"A", .error "FetchError: boom"⟩, ⟨"B", .ok [item]⟩] =
      (some { total_sources := 2
              total_items := 1
              total_processed := 0
              total_stored := 0
              source_stats :=
                [("A", .errored "FetchError: boom"),
                 ("B", .errored
                   "AttributeError: dict object has no attribute link")] },
       db) :=
  fun _ _ => rfl

/-- C7 (code bug).  `get_relevant_items` never returns results: the
`SELECT` it prepares references the columns `rss_items.guid`,
`rss_items.created_at` and `llm_results.item_guid`, none of which exist
in the schema `_create_tables` creates, so SQLite raises
`OperationalError` (`no such column`) before reading any row, and the
method propagates it for every input. -/
theorem get_relevant_items_always_errors :
    ∀ (db : DBState) (query : String) (min_score : Int) (limit : Nat),
      get_relevant_items db query min_score limit =
        .error "no such column: rss_items.guid" :=
  fun _ _ _ _ => rfl

/-- C8 (code bug).  Retention cleanup never removes anything: both
`DELETE` statements of `cleanup_old_items` reference columns
(`llm_results.item_guid`, `rss_items.guid`) that the schema of
`_create_tables` does not have, the resulting `sqlite3.OperationalError`
is swallowed by the `except sqlite3.Error` handler, and the function
returns with the tables exactly as they were — for every store state and
every age threshold. -/
theorem cleanup_removes_nothing :
    ∀ (db : DBState) (days_old : Nat),
      cleanup_old_items db days_old = db :=
  fun _ _ => rfl

end IntelligentRSS
